import Mathlib

/-!
Shallow embedding of the tile-cache and image-synthesis pipeline of the
Nasa2025 sky-map application (files `src/legacy/src/background_tiles.py`,
`src/legacy/src/image_handler.py`, `src/legacy/src/image_gallery.py`).

Numbers that the Python code manipulates as IEEE doubles are modelled as
rationals (`ℚ`); external collaborators (the `requests` HTTP client, PIL
decoding/encoding, numpy's global pseudo-random generator, `hashlib.md5`)
are modelled as explicit function parameters, since their code is not part
of this repository.  Python dictionaries are modelled as association lists
whose insert prepends, so that lookup observes the most recent binding.
-/

set_option autoImplicit false

namespace Nasa2025

/-- Association-list lookup with string keys, mirroring Python `dict`
lookup (`key in d` / `d[key]`). -/
def lookupStr {α : Type} : List (String × α) → String → Option α
  | [], _ => none
  | (k, v) :: t, key => if k = key then some v else lookupStr t key

/-- Floor of a rational. -/
def qfloor (q : ℚ) : ℤ :=
  ⌊q⌋

/-- Round a rational to the nearest integer, ties to even.  This is the
rounding performed by Python `format(x, '.nf')` on the scaled value (for
inputs away from the decimal/binary representation boundaries, where the
double nearest to the written decimal literal rounds the same way). -/
def rhe (q : ℚ) : ℤ :=
  let f := qfloor q
  let r := q - (f : ℚ)
  if r < 1/2 then f
  else if 1/2 < r then f + 1
  else if f % 2 = 0 then f else f + 1

/-- The integer of `q` scaled to `d` decimal places: `round(q * 10^d)`,
ties to even. -/
def roundTo (d : ℕ) (q : ℚ) : ℤ :=
  rhe (q * (10 : ℚ) ^ d)

/-- Left-pad the decimal digits of `n` with zeros to width `d`. -/
def padZeros (d : ℕ) (n : ℕ) : String :=
  let s := toString n
  if s.length < d then String.mk (List.replicate (d - s.length) '0') ++ s else s

/-- Python `f"{q:.df}"`: fixed-point decimal formatting with `d` digits
after the point.  The sign is the sign of the value being formatted, so a
negative value that rounds to zero prints as `-0.00`, exactly as Python
does.  (`ℚ` has no negative zero, so an exact zero prints unsigned; the
IEEE `-0.0` input is the one corner this cannot represent.) -/
def fmtDec (d : ℕ) (q : ℚ) : String :=
  let n := roundTo d q
  (if q < 0 then "-" else "") ++
    toString (n.natAbs / 10 ^ d) ++ "." ++ padZeros d (n.natAbs % 10 ^ d)

/-- The cache key built by `SpaceBackgroundTiles._get_or_create_tile`:
`f"{survey}_{ra:.2f}_{dec:.2f}_{size:.2f}"`. -/
def tileCacheKey (survey : String) (ra dec size : ℚ) : String :=
  survey ++ "_" ++ fmtDec 2 ra ++ "_" ++ fmtDec 2 dec ++ "_" ++ fmtDec 2 size

/-- Does `pat` occur as a substring of `s`?  Mirrors Python `pat in s`
for a non-empty pattern. -/
def strContains (s pat : String) : Bool :=
  (s.splitOn pat).length != 1

/-- The standard base64 alphabet used by Python `base64.b64encode`. -/
def b64Alphabet : List Char :=
  "ABCDEFGHIJKLMNOPQRSTUVWXYZabcdefghijklmnopqrstuvwxyz0123456789+/".toList

/-- Character for a six-bit group. -/
def b64CharOf (n : ℕ) : Char :=
  b64Alphabet.getD n 'A'

/-- Base64 encoding of a byte list (`base64.b64encode`), with `=` padding. -/
def b64Encode : List ℕ → List Char
  | [] => []
  | [a] => [b64CharOf (a / 4), b64CharOf (a % 4 * 16), '=', '=']
  | [a, b] => [b64CharOf (a / 4), b64CharOf (a % 4 * 16 + b / 16),
               b64CharOf (b % 16 * 4), '=']
  | a :: b :: c :: rest =>
      b64CharOf (a / 4) :: b64CharOf (a % 4 * 16 + b / 16) ::
        b64CharOf (b % 16 * 4 + c / 64) :: b64CharOf (c % 64) :: b64Encode rest

/-- Six-bit value of a base64 character. -/
def b64Val (c : Char) : ℕ :=
  b64Alphabet.indexOf c

/-- Base64 decoding of a character list (`base64.b64decode`), honouring
`=` padding; malformed tails decode to `[]` best-effort. -/
def b64Decode : List Char → List ℕ
  | a :: b :: c :: d :: rest =>
      let va := b64Val a
      let vb := b64Val b
      if c = '=' then [va * 4 + vb / 16]
      else
        let vc := b64Val c
        if d = '=' then [va * 4 + vb / 16, vb % 16 * 16 + vc / 4]
        else (va * 4 + vb / 16) :: (vb % 16 * 16 + vc / 4) ::
               (vc % 4 * 64 + b64Val d) :: b64Decode rest
  | _ => []

/-- The `data:` URL marker prepended to every JPEG tile the pipeline
produces: `"data:image/jpeg;base64,"`. -/
def dataUrlJpeg : String := "data:image/jpeg;base64,"

/-- The two cache tiers of `SpaceBackgroundTiles`: the in-memory dict
`tile_cache` (data-URL strings keyed by the cache key) and the file tier
under `data/tiles` (raw JPEG bytes in a file named by the md5 hex digest
of the cache key). -/
structure TileCacheState where
  mem : List (String × String)
  disk : List (String × List ℕ)
  deriving DecidableEq

/-- The store step of `_get_or_create_tile`: write the data-URL string
into the memory dict, and, when it carries the JPEG data-URL marker,
decode the base64 payload (the part after the first comma) and write the
bytes to the file tier under the md5 name.  `md5` is `hashlib.md5(...)
.hexdigest()`, an external collaborator passed as a parameter. -/
def putTile (md5 : String → String) (key data : String)
    (s : TileCacheState) : TileCacheState :=
  { mem := (key, data) :: s.mem
    disk :=
      if data.startsWith dataUrlJpeg then
        (md5 key, b64Decode ((data.splitOn ",").getD 1 "").toList) :: s.disk
      else s.disk }

/-- The lookup step of `_get_or_create_tile`: memory tier first; then the
file tier, whose bytes are base64-encoded, given the data-URL marker and
promoted into the memory tier; otherwise a miss. -/
def getTile (md5 : String → String) (key : String)
    (s : TileCacheState) : Option String × TileCacheState :=
  match lookupStr s.mem key with
  | some v => (some v, s)
  | none =>
    match lookupStr s.disk (md5 key) with
    | some bytes =>
        let data := dataUrlJpeg ++ String.mk (b64Encode bytes)
        (some data, { s with mem := (key, data) :: s.mem })
    | none => (none, s)

/-- Outcome of the single `requests.get` call issued for a tile request:
either a response (status code, declared content type, body bytes), or one
of the exceptions the try/except absorbs (timeout, connection failure). -/
inductive FetchOutcome where
  | response (status : ℕ) (contentType : String) (body : List ℕ)
  | timeout
  | connectionError
  deriving DecidableEq

/-- A fetch that does not deliver a usable image: an exception, a non-200
status, or a content type without `image` in it.  `_create_space_tile`
falls back to the procedural generator in exactly these cases. -/
def FetchOutcome.failed : FetchOutcome → Bool
  | .response status ct _ => !(status == 200 && strContains ct "image")
  | .timeout => true
  | .connectionError => true

/-- Provenance of a produced tile (§3 of the design: `remote`, `enhanced`,
`procedural`).  The pipeline always enhances a successful fetch, so the
remote tag is never produced by `_create_space_tile`. -/
inductive Provenance where
  | remote
  | enhanced
  | procedural
  deriving DecidableEq

/-- A produced tile: the data-URL string the Python code returns, together
with the provenance of the branch that produced it. -/
structure Tile where
  data : String
  provenance : Provenance
  deriving DecidableEq

/-- One PIL drawing instruction of the procedural generator (colours are
RGB byte triples; ellipse corners may be negative after the `x - size//2`
arithmetic, hence `ℤ`). -/
inductive DrawOp where
  | canvas (width height : ℕ) (color : String)
  | point (x y : ℤ) (r g b : ℕ)
  | ellipse (x0 y0 x1 y1 : ℤ) (r g b : ℕ)
  | blur (radiusNum radiusDen : ℕ)
  deriving DecidableEq

/-- Python float `%`: `q - m * ⌊q / m⌋` (result has the sign of `m`). -/
def qmod (q m : ℚ) : ℚ :=
  q - m * (qfloor (q / m) : ℚ)

/-- The seed `_create_procedural_space_tile` feeds to `np.random.seed`:
`int((ra * 1000 + dec * 1000) % 10000)`.  The `%` result is non-negative,
so Python's truncating `int` agrees with the floor. -/
def seedOf (ra dec : ℚ) : ℤ :=
  qfloor (qmod (ra * 1000 + dec * 1000) 10000)

/-- The three nebula colours of `_create_procedural_space_tile`. -/
def nebulaPalette : List (ℕ × ℕ × ℕ) :=
  [(20, 10, 30), (30, 20, 10), (10, 20, 30)]

/-- The star-field loop of `_create_procedural_space_tile`.  `rng s i` is
the value of the `i`-th draw from numpy's global generator after
`np.random.seed s` — the generator is external, so it enters as a
parameter; determinism of the embedding only uses that the draws are a
pure function of the seed and the draw position.  Draw `0` is
`np.random.randint(20, 50)` (the star count); each star consumes four
draws: x, y, brightness, and the size choice from `[1,1,1,2,2,3]`. -/
def starOps (rng : ℤ → ℕ → ℕ) (seed : ℤ) : List DrawOp :=
  let numStars := rng seed 0
  (List.range numStars).map fun k =>
    let x : ℤ := rng seed (4 * k + 1)
    let y : ℤ := rng seed (4 * k + 2)
    let brightness := rng seed (4 * k + 3)
    let starSize := rng seed (4 * k + 4)
    if starSize = 1 then .point x y brightness brightness brightness
    else .ellipse (x - starSize / 2) (y - starSize / 2)
      (x + starSize / 2) (y + starSize / 2) brightness brightness brightness

/-- The optional nebulosity blob: one draw for the `np.random.random() <
0.3` test (modelled as the next stream value mod 10 being below 3, a pure
function of seed and position), then draws for centre, size and the colour
choice from the three-entry palette. -/
def nebulaOps (rng : ℤ → ℕ → ℕ) (seed : ℤ) : List DrawOp :=
  let base := 4 * rng seed 0 + 1
  if rng seed base % 10 < 3 then
    let nx : ℤ := rng seed (base + 1)
    let ny : ℤ := rng seed (base + 2)
    let ns : ℤ := rng seed (base + 3)
    let (r, g, b) := nebulaPalette.getD (rng seed (base + 4) % 3) (0, 0, 0)
    [.ellipse (nx - ns / 2) (ny - ns / 2) (nx + ns / 2) (ny + ns / 2) r g b]
  else []

/-- The complete drawing sequence of `_create_procedural_space_tile` for a
given seed: the 256×256 near-black canvas, the star field, the optional
nebula, and the radius-1 Gaussian blur. -/
def proceduralOps (rng : ℤ → ℕ → ℕ) (seed : ℤ) : List DrawOp :=
  .canvas 256 256 "#0a0a0a" :: starOps rng seed ++ nebulaOps rng seed ++
    [.blur 1 1]

/-- `_create_procedural_space_tile(ra, dec, size)`: seed the generator
from the coordinate, draw, rasterise/JPEG-encode at quality 70 and
base64-encode (`render ops quality`, the external PIL + base64 chain), and
prepend the data-URL marker.  The angular `size` argument is shadowed by
the per-star size draw inside the loop and never reaches the drawing. -/
def proceduralSpaceTile (rng : ℤ → ℕ → ℕ) (render : List DrawOp → ℕ → String)
    (ra dec size : ℚ) : String :=
  dataUrlJpeg ++ render (proceduralOps rng (seedOf ra dec)) 70

/-- The survey table of `SpaceBackgroundTiles.__init__`. -/
def backgroundSurveys : List (String × String) :=
  [("optical", "DSS2 Red"), ("infrared", "2MASS-J"),
   ("radio", "NVSS"), ("xray", "RASS")]

/-- `_create_space_tile(ra, dec, size, survey)`: on a 200 response whose
content type mentions `image`, decode + darken-to-60% + blur + re-encode
(the external PIL chain `processRemote`) and tag the result enhanced;
on any other response or on an exception, fall back to the procedural
generator.  `fetch` is the outcome of the single `requests.get` for this
request's parameters. -/
def createSpaceTile (fetch : FetchOutcome) (processRemote : List ℕ → String)
    (rng : ℤ → ℕ → ℕ) (render : List DrawOp → ℕ → String)
    (ra dec size : ℚ) : Tile :=
  match fetch with
  | .response status ct body =>
      if status == 200 && strContains ct "image" then
        { data := dataUrlJpeg ++ processRemote body, provenance := .enhanced }
      else
        { data := proceduralSpaceTile rng render ra dec size
          provenance := .procedural }
  | _ =>
      { data := proceduralSpaceTile rng render ra dec size
        provenance := .procedural }

/-- `_get_or_create_tile(ra, dec, size, survey)`: build the cache key,
look the key up (memory then file tier), and on a miss create the tile and
store it in both tiers before returning it.  The produced data always
carries the data-URL marker and is non-empty, so the `if tile_data:` store
guard is always taken. -/
def getOrCreateTile (md5 : String → String) (fetch : FetchOutcome)
    (processRemote : List ℕ → String) (rng : ℤ → ℕ → ℕ)
    (render : List DrawOp → ℕ → String) (ra dec size : ℚ) (survey : String)
    (s : TileCacheState) : String × TileCacheState :=
  let key := tileCacheKey survey ra dec size
  match getTile md5 key s with
  | (some v, s') => (v, s')
  | (none, s') =>
      let tile := createSpaceTile fetch processRemote rng render ra dec size
      (tile.data, putTile md5 key tile.data s')

/-! ### Interleaving model for concurrent identical tile requests

`_get_or_create_tile` runs check-then-fetch with no per-key in-flight
marker.  The suspension point is the outbound network request, so a task
is modelled in two atomic phases: (a) look the key up in both cache tiers,
(b) fetch (one Remote Fetcher invocation) and store.  `env` is the
data-URL string the create step produces for this request — identical for
every task since the pipeline is deterministic for fixed inputs. -/

/-- Phase of one in-flight request for a fixed key. -/
inductive TaskPhase where
  | start
  | missed
  | done (result : Option String)
  deriving DecidableEq

/-- Shared state: the two cache tiers, the number of Remote Fetcher
invocations performed so far, and the phase of each task. -/
structure ConcState where
  cache : TileCacheState
  fetches : ℕ
  tasks : List TaskPhase
  deriving DecidableEq

/-- Run one atomic step of task `i`: a `start` task performs the cache
lookup of `_get_or_create_tile` (hit completes it, miss records the miss);
a `missed` task performs the fetch-and-store; a finished task does
nothing. -/
def concStep (md5 : String → String) (env key : String)
    (s : ConcState) (i : ℕ) : ConcState :=
  match s.tasks.get? i with
  | none => s
  | some .start =>
      match getTile md5 key s.cache with
      | (some v, c') =>
          { s with cache := c', tasks := s.tasks.set i (.done (some v)) }
      | (none, c') =>
          { s with cache := c', tasks := s.tasks.set i .missed }
  | some .missed =>
      { cache := putTile md5 key env s.cache
        fetches := s.fetches + 1
        tasks := s.tasks.set i (.done (some env)) }
  | some (.done _) => s

/-- Execute a schedule: at each step the scheduler picks which task
advances by one atomic phase. -/
def runSched (md5 : String → String) (env key : String)
    (sched : List ℕ) (s : ConcState) : ConcState :=
  sched.foldl (concStep md5 env key) s

/-- Initial state for two identical requests on a key absent from both
cache tiers. -/
def twoTasksInit : ConcState :=
  { cache := { mem := [], disk := [] }, fetches := 0
    tasks := [.start, .start] }

/-! ### `AstronomicalImageHandler` (`image_handler.py`) -/

/-- The decoded pixel data of a PIL image, as the channels the enhancement
loop iterates over (three for colour, one for grayscale), each a flat list
of `float32` values modelled as rationals. -/
structure PImg where
  channels : List (List ℚ)
  deriving DecidableEq

/-- First element as the running start of a numpy reduction. -/
def listMin : List ℚ → ℚ
  | [] => 0
  | a :: t => t.foldl min a

/-- numpy `max` over a flattened channel. -/
def listMax : List ℚ → ℚ
  | [] => 0
  | a :: t => t.foldl max a

/-- The `1e-8` guard added to the stretch denominator. -/
def stretchEps : ℚ := 1 / 100000000

/-- The min-max contrast stretch of `_enhance_astronomical_image`:
`channel = (channel - channel.min()) / (channel.max() - channel.min() + 1e-8)`. -/
def stretchChannel (c : List ℚ) : List ℚ :=
  c.map fun v => (v - listMin c) / (listMax c - listMin c + stretchEps)

/-- Python truncating conversion composed with the `uint8` wrap performed
by `astype(np.uint8)`. -/
def toUint8 (q : ℚ) : ℕ :=
  ((if q < 0 then -(qfloor (-q)) else qfloor q) % 256).toNat

/-- One channel of `_enhance_astronomical_image` after the stretch: gamma
correction `np.power(channel, 0.7)` (the external floating `**`, passed as
`gpow`), scale by 255 and cast to `uint8`. -/
def enhanceChannel (gpow : ℚ → ℚ) (c : List ℚ) : List ℕ :=
  (stretchChannel c).map fun v => toUint8 (gpow v * 255)

/-- `_enhance_astronomical_image` applied to every channel (the colour and
grayscale branches run the same per-channel arithmetic). -/
def enhanceImage (gpow : ℚ → ℚ) (img : PImg) : List (List ℕ) :=
  img.channels.map (enhanceChannel gpow)

/-- `_convert_to_base64(image_data)`: decode the bytes with PIL (`decode`,
external; `none` models `Image.open` raising on undecodable bytes),
enhance, JPEG-encode at quality 85 (`jpegEncode`, external), base64-encode
and prepend the data-URL marker.  The surrounding try/except turns a
decode failure into the empty string. -/
def convertToBase64 (decode : List ℕ → Option PImg) (gpow : ℚ → ℚ)
    (jpegEncode : List (List ℕ) → List ℕ) (imageData : List ℕ) : String :=
  match decode imageData with
  | some img =>
      dataUrlJpeg ++ String.mk (b64Encode (jpegEncode (enhanceImage gpow img)))
  | none => ""

/-- The seed of `_create_fallback_image`: `int(ra * dec) % 1000` (Python
`int` truncates toward zero; Python `%` then yields a value in
`[0, 1000)`). -/
def fallbackSeed (ra dec : ℚ) : ℤ :=
  (if ra * dec < 0 then -(qfloor (-(ra * dec))) else qfloor (ra * dec)) % 1000

/-- The drawing sequence of `_create_fallback_image`: a 200×150 near-black
canvas and twenty single-pixel stars, each consuming three draws
(x, y, brightness) from the seeded generator. -/
def fallbackOps (rng : ℤ → ℕ → ℕ) (seed : ℤ) : List DrawOp :=
  .canvas 200 150 "#0a0a0a" ::
    (List.range 20).map fun k =>
      let x : ℤ := rng seed (3 * k)
      let y : ℤ := rng seed (3 * k + 1)
      let brightness := rng seed (3 * k + 2)
      .point x y brightness brightness brightness

/-- `_create_fallback_image(obj_name, ra, dec)`: deterministic star field
seeded from the coordinates, JPEG-encoded at quality 85; the object name
is not used in the drawing. -/
def fallbackImage (rng : ℤ → ℕ → ℕ) (render : List DrawOp → ℕ → String)
    (ra dec : ℚ) : String :=
  dataUrlJpeg ++ render (fallbackOps rng (fallbackSeed ra dec)) 85

/-- The cache key of `get_object_image`:
`f"{obj_name}_{survey}_{size}"` — built from the object name, the survey
and the angular size only; the coordinates do not appear.  (`toString` on
`ℚ` stands in for Python's float `repr`; both calls below render the same
`size` the same way, which is all the theorems use.) -/
def objectCacheKey (objName survey : String) (size : ℚ) : String :=
  objName ++ "_" ++ survey ++ "_" ++ toString size

/-- `_fetch_skyview_image`'s handling of the request outcome: body bytes
on a 200 response with an image content type, otherwise `None` (timeouts
and exceptions are absorbed to `None`). -/
def fetchSkyviewImage (outcome : FetchOutcome) : Option (List ℕ) :=
  match outcome with
  | .response status ct body =>
      if status == 200 && strContains ct "image" then some body else none
  | _ => none

/-- The image-handler state: the `image_cache` dict and a count of
`_fetch_skyview_image` invocations (instrumentation for the no-refetch
properties). -/
structure HandlerState where
  image_cache : List (String × String)
  fetchCalls : ℕ
  deriving DecidableEq

/-- `get_object_image(obj_name, ra, dec, survey, size)`: return the cached
string when the key is present; otherwise fetch (`env` gives the outcome
of the request for given coordinates, survey and size), convert a
successful fetch, or build the coordinate-seeded fallback, and cache the
result under the key before returning it. -/
def getObjectImage (env : ℚ → ℚ → String → ℚ → FetchOutcome)
    (decode : List ℕ → Option PImg) (gpow : ℚ → ℚ)
    (jpegEncode : List (List ℕ) → List ℕ) (rng : ℤ → ℕ → ℕ)
    (render : List DrawOp → ℕ → String) (objName : String) (ra dec : ℚ)
    (survey : String) (size : ℚ) (s : HandlerState) :
    String × HandlerState :=
  let key := objectCacheKey objName survey size
  match lookupStr s.image_cache key with
  | some v => (v, s)
  | none =>
      let s := { s with fetchCalls := s.fetchCalls + 1 }
      match fetchSkyviewImage (env ra dec survey size) with
      | some bytes =>
          let b := convertToBase64 decode gpow jpegEncode bytes
          (b, { s with image_cache := (key, b) :: s.image_cache })
      | none =>
          let fb := fallbackImage rng render ra dec
          (fb, { s with image_cache := (key, fb) :: s.image_cache })

/-! ### `CelestialImageGallery` (`image_gallery.py`) -/

/-- Per-survey metadata of `CelestialImageGallery.__init__`. -/
structure SurveyMeta where
  wavelength : String
  telescope : String
  description : String
  deriving DecidableEq

/-- One gallery entry dict; `filters`/`instrument` appear only on the
curated space-telescope entries. -/
structure GalleryItem where
  category : String
  survey : String
  image_url : String
  wavelength : String
  telescope : String
  description : String
  timestamp : String
  coordinates : String
  size : String
  filters : Option String
  instrument : Option String
  deriving DecidableEq

/-- The survey table of `CelestialImageGallery.__init__`, in declaration
order: category, then `(survey name, metadata)` pairs. -/
def gallerySurveys : List (String × List (String × SurveyMeta)) :=
  [("optical",
     [("DSS2 Red", ⟨"650nm", "Palomar/UK Schmidt", "Red optical light"⟩),
      ("DSS2 Blue", ⟨"450nm", "Palomar/UK Schmidt", "Blue optical light"⟩),
      ("SDSS DR7", ⟨"550nm", "Sloan Digital Sky Survey", "Digital sky survey"⟩)]),
   ("infrared",
     [("2MASS-J", ⟨"1.25μm", "2MASS", "Near-infrared J-band"⟩),
      ("2MASS-H", ⟨"1.65μm", "2MASS", "Near-infrared H-band"⟩),
      ("2MASS-K", ⟨"2.17μm", "2MASS", "Near-infrared K-band"⟩),
      ("WISE 3.4", ⟨"3.4μm", "WISE", "Mid-infrared W1"⟩),
      ("WISE 4.6", ⟨"4.6μm", "WISE", "Mid-infrared W2"⟩)]),
   ("xray",
     [("RASS", ⟨"0.1-2.4keV", "ROSAT", "Soft X-ray all-sky survey"⟩)]),
   ("radio",
     [("NVSS", ⟨"20cm", "VLA", "Radio continuum survey"⟩),
      ("FIRST", ⟨"20cm", "VLA", "High-resolution radio survey"⟩)])]

/-- The survey names of the generic per-survey table. -/
def gallerySurveyNames : List String :=
  (gallerySurveys.map fun p => p.2.map Prod.fst).flatten

/-- A curated record of `_get_hubble_images` / `_get_jwst_images`:
direct URL, description, date, and the filters/instrument field. -/
structure CuratedRecord where
  url : String
  description : String
  date : String
  extra : String
  deriving DecidableEq

/-- The name-keyed `hubble_objects` table of `_get_hubble_images`. -/
def hubbleObjects : List (String × CuratedRecord) :=
  [("Orion Nebula",
    ⟨"https://hubblesite.org/files/live/sites/hubble/files/home/hubble-30th-anniversary/images/hubble_30th_orion_nebula.jpg",
     "Hubble visible light composite", "2020-04-24", "F658N, F502N, F475W"⟩),
   ("Crab Nebula",
    ⟨"https://hubblesite.org/files/live/sites/hubble/files/home/science/astronomy/stars-and-nebulas/_images/crab-nebula-mosaic.jpg",
     "Hubble optical mosaic", "2019-07-04", "F555W, F814W"⟩),
   ("Andromeda Galaxy",
    ⟨"https://hubblesite.org/files/live/sites/hubble/files/home/science/astronomy/galaxies/_images/andromeda-galaxy-m31.jpg",
     "Hubble high-resolution view", "2015-01-05", "F475W, F814W, F160W"⟩)]

/-- The name-keyed `jwst_objects` table of `_get_jwst_images`. -/
def jwstObjects : List (String × CuratedRecord) :=
  [("Orion Nebula",
    ⟨"https://webbtelescope.org/files/live/sites/webb/files/home/webb-science/early-release-observations/_images/orion-nebula-nircam.jpg",
     "JWST near-infrared view", "2022-09-12", "NIRCam"⟩),
   ("Crab Nebula",
    ⟨"https://webbtelescope.org/files/live/sites/webb/files/home/webb-science/_images/crab-nebula-miri.jpg",
     "JWST mid-infrared view", "2023-07-10", "MIRI"⟩)]

/-- The `space_telescope` item `_get_hubble_images` builds from a curated
record. -/
def hubbleGalleryItem (rec : CuratedRecord) : GalleryItem :=
  { category := "space_telescope", survey := "Hubble Space Telescope"
    image_url := rec.url, wavelength := "Visible", telescope := "HST"
    description := rec.description, timestamp := rec.date
    coordinates := "High resolution", size := "Variable FOV"
    filters := some rec.extra, instrument := none }

/-- The `space_telescope` item `_get_jwst_images` builds from a curated
record. -/
def jwstGalleryItem (rec : CuratedRecord) : GalleryItem :=
  { category := "space_telescope", survey := "James Webb Space Telescope"
    image_url := rec.url, wavelength := "Infrared", telescope := "JWST"
    description := rec.description, timestamp := rec.date
    coordinates := "Ultra high resolution", size := "Variable FOV"
    filters := none, instrument := some rec.extra }

/-- `_get_hubble_images(obj_name)`: the singleton curated item when the
name is in the table, else the empty list. -/
def getHubbleImages (objName : String) : List GalleryItem :=
  match lookupStr hubbleObjects objName with
  | some rec => [hubbleGalleryItem rec]
  | none => []

/-- `_get_jwst_images(obj_name)`: the singleton curated item when the
name is in the table, else the empty list. -/
def getJwstImages (objName : String) : List GalleryItem :=
  match lookupStr jwstObjects objName with
  | some rec => [jwstGalleryItem rec]
  | none => []

/-- `_fetch_survey_image(ra, dec, survey, metadata)`: on a 200 response
with an image content type, base64-encode the body behind the data-URL
marker; anything else (including the exceptions the except absorbs) is
`None`.  `envG` maps each survey name to the outcome of its request. -/
def fetchSurveyImage (envG : String → FetchOutcome) (survey : String) :
    Option String :=
  match envG survey with
  | .response status ct body =>
      if status == 200 && strContains ct "image" then
        some (dataUrlJpeg ++ String.mk (b64Encode body))
      else none
  | _ => none

/-- The gallery cache key of `get_multi_wavelength_gallery`:
`f"gallery_{obj_name}_{ra:.3f}_{dec:.3f}"`. -/
def galleryKey (objName : String) (ra dec : ℚ) : String :=
  "gallery_" ++ objName ++ "_" ++ fmtDec 3 ra ++ "_" ++ fmtDec 3 dec

/-- The survey loop of `get_multi_wavelength_gallery`: for each
`(category, survey)` of the table in declaration order, append an item
when the fetch yields data and silently skip the survey otherwise; then
extend with the curated Hubble and JWST items for the object name.  `now`
is `datetime.now().isoformat()`, an external clock value. -/
def buildGalleryItems (envG : String → FetchOutcome) (now : String)
    (objName : String) (ra dec : ℚ) : List GalleryItem :=
  (gallerySurveys.flatMap fun cs =>
    cs.2.filterMap fun sm =>
      (fetchSurveyImage envG sm.1).map fun url =>
        { category := cs.1, survey := sm.1, image_url := url
          wavelength := sm.2.wavelength, telescope := sm.2.telescope
          description := sm.2.description, timestamp := now
          coordinates :=
            "RA: " ++ fmtDec 3 ra ++ "°, Dec: " ++ fmtDec 3 dec ++ "°"
          size := "0.5° × 0.5°", filters := none, instrument := none }) ++
  getHubbleImages objName ++ getJwstImages objName

/-- `get_multi_wavelength_gallery(obj_name, ra, dec)`: serve the cached
gallery when the key is present, otherwise build it and cache it under the
key before returning it. -/
def getMultiWavelengthGallery (envG : String → FetchOutcome) (now : String)
    (objName : String) (ra dec : ℚ)
    (cache : List (String × List GalleryItem)) :
    List GalleryItem × List (String × List GalleryItem) :=
  let key := galleryKey objName ra dec
  match lookupStr cache key with
  | some v => (v, cache)
  | none =>
      let g := buildGalleryItems envG now objName ra dec
      (g, (key, g) :: cache)

/-! ### Helper lemmas -/

/-- Lookup finds the binding just inserted. -/
theorem lookupStr_cons_self {α : Type} (k : String) (v : α)
    (t : List (String × α)) : lookupStr ((k, v) :: t) k = some v := by
  simp [lookupStr]

/-- A left fold by `min` never exceeds its start. -/
theorem foldl_min_le_init (l : List ℚ) (a : ℚ) : l.foldl min a ≤ a := by
  induction l generalizing a with
  | nil => exact le_refl a
  | cons b t ih => exact le_trans (ih (min a b)) (min_le_left a b)

/-- A left fold by `min` never exceeds a member of the list. -/
theorem foldl_min_le_mem {l : List ℚ} {v : ℚ} (a : ℚ) (h : v ∈ l) :
    l.foldl min a ≤ v := by
  induction l generalizing a with
  | nil => cases h
  | cons b t ih =>
      rcases List.mem_cons.mp h with rfl | hv
      · exact le_trans (foldl_min_le_init t (min a v)) (min_le_right a v)
      · exact ih (min a b) hv

/-- A left fold by `max` is at least its start. -/
theorem init_le_foldl_max (l : List ℚ) (a : ℚ) : a ≤ l.foldl max a := by
  induction l generalizing a with
  | nil => exact le_refl a
  | cons b t ih => exact le_trans (le_max_left a b) (ih (max a b))

/-- A left fold by `max` is at least every member of the list. -/
theorem mem_le_foldl_max {l : List ℚ} {v : ℚ} (a : ℚ) (h : v ∈ l) :
    v ≤ l.foldl max a := by
  induction l generalizing a with
  | nil => cases h
  | cons b t ih =>
      rcases List.mem_cons.mp h with rfl | hv
      · exact le_trans (le_max_right a v) (init_le_foldl_max t (max a v))
      · exact ih (max a b) hv

/-- Every member of a channel is at least its minimum. -/
theorem listMin_le_of_mem {c : List ℚ} {v : ℚ} (h : v ∈ c) :
    listMin c ≤ v := by
  match c with
  | [] => cases h
  | a :: t =>
      rcases List.mem_cons.mp h with rfl | hv
      · exact foldl_min_le_init t v
      · exact foldl_min_le_mem a hv

/-- Every member of a channel is at most its maximum. -/
theorem le_listMax_of_mem {c : List ℚ} {v : ℚ} (h : v ∈ c) :
    v ≤ listMax c := by
  match c with
  | [] => cases h
  | a :: t =>
      rcases List.mem_cons.mp h with rfl | hv
      · exact init_le_foldl_max t v
      · exact mem_le_foldl_max a hv

/-! ### Claim theorems -/

/-- Claim C1, counterexample: the key of `_get_or_create_tile` is built
with `%.2f` formatting, so two requests whose coordinates agree after
rounding to 3 decimal degrees (`0.1248` and `0.1253` both round to
`0.125`) can still format differently at 2 decimals and receive different
cache keys. -/
theorem tileCacheKey_round3_counterexample :
    roundTo 3 (1248 / 10000 : ℚ) = roundTo 3 (1253 / 10000 : ℚ) ∧
    tileCacheKey "optical" (1248 / 10000) 0 (1 / 2) ≠
      tileCacheKey "optical" (1253 / 10000) 0 (1 / 2) := by
  constructor
  · have h1 : roundTo 3 (1248 / 10000 : ℚ) = 125 := by
      norm_num [roundTo, rhe, qfloor]
    have h2 : roundTo 3 (1253 / 10000 : ℚ) = 125 := by
      norm_num [roundTo, rhe, qfloor]
    rw [h1, h2]
  · have h1 : roundTo 2 (1248 / 10000 : ℚ) = 12 := by
      norm_num [roundTo, rhe, qfloor]
    have h2 : roundTo 2 (1253 / 10000 : ℚ) = 13 := by
      norm_num [roundTo, rhe, qfloor]
    have h0 : roundTo 2 (0 : ℚ) = 0 := by
      norm_num [roundTo, rhe, qfloor]
    have hh : roundTo 2 (1 / 2 : ℚ) = 50 := by
      norm_num [roundTo, rhe, qfloor]
    have hn1 : ¬((1248 / 10000 : ℚ) < 0) := by norm_num
    have hn2 : ¬((1253 / 10000 : ℚ) < 0) := by norm_num
    have hn0 : ¬((0 : ℚ) < 0) := by norm_num
    have hnh : ¬((1 / 2 : ℚ) < 0) := by norm_num
    simp only [tileCacheKey, fmtDec, h1, h2, h0, hh, hn1, hn2, hn0, hnh,
      if_false, ite_false]
    decide

/-- Claim C1 (amended): two tile requests with equal survey whose centre
right ascension, declination and angular size agree after rounding to 2
decimal degrees — the precision of the key's `%.2f` formatting — and agree
in sign (a condition that only bites when a negative value rounds to zero,
which `%.2f` prints as `-0.00`) receive the identical cache key and hence
the same cache entry. -/
theorem tileCacheKey_eq_of_round2 (survey : String)
    (ra₁ dec₁ size₁ ra₂ dec₂ size₂ : ℚ)
    (hra : roundTo 2 ra₁ = roundTo 2 ra₂) (hraSign : ra₁ < 0 ↔ ra₂ < 0)
    (hdec : roundTo 2 dec₁ = roundTo 2 dec₂) (hdecSign : dec₁ < 0 ↔ dec₂ < 0)
    (hsize : roundTo 2 size₁ = roundTo 2 size₂)
    (hsizeSign : size₁ < 0 ↔ size₂ < 0) :
    tileCacheKey survey ra₁ dec₁ size₁ = tileCacheKey survey ra₂ dec₂ size₂ := by
  simp [tileCacheKey, fmtDec, hra, hdec, hsize, hraSign, hdecSign, hsizeSign]

/-- Witness for `tileCacheKey_eq_of_round2`: right ascensions `0.101`
versus `0.102` agree at 2 decimals, and declinations `-0.001` versus
`-0.002` both round to zero while staying negative (both format as
`-0.00`), so the keys coincide. -/
theorem tileCacheKey_eq_of_round2_witness :
    (roundTo 2 (101 / 1000 : ℚ) = roundTo 2 (102 / 1000 : ℚ) ∧
      roundTo 2 (-1 / 1000 : ℚ) = roundTo 2 (-2 / 1000 : ℚ) ∧
      ((-1 / 1000 : ℚ) < 0 ↔ (-2 / 1000 : ℚ) < 0)) ∧
    tileCacheKey "optical" (101 / 1000) (-1 / 1000) (1 / 2) =
      tileCacheKey "optical" (102 / 1000) (-2 / 1000) (1 / 2) := by
  have hra : roundTo 2 (101 / 1000 : ℚ) = roundTo 2 (102 / 1000 : ℚ) := by
    norm_num [roundTo, rhe, qfloor]
  have hdec : roundTo 2 (-1 / 1000 : ℚ) = roundTo 2 (-2 / 1000 : ℚ) := by
    norm_num [roundTo, rhe, qfloor]
  have hdecSign : (-1 / 1000 : ℚ) < 0 ↔ (-2 / 1000 : ℚ) < 0 := by norm_num
  exact ⟨⟨hra, hdec, hdecSign⟩,
    tileCacheKey_eq_of_round2 "optical" (101 / 1000) (-1 / 1000) (1 / 2)
      (102 / 1000) (-2 / 1000) (1 / 2) hra (by norm_num) hdec hdecSign rfl
      (by norm_num)⟩

/-- Claim C2: a lookup (memory tier first, then the file tier with
promotion) performed after the store step of `_get_or_create_tile` under
the same key returns exactly the stored tile data — not a miss and not a
different value. -/
theorem getTile_after_putTile (md5 : String → String) (key data : String)
    (s : TileCacheState) :
    (getTile md5 key (putTile md5 key data s)).1 = some data := by
  simp [getTile, putTile, lookupStr]

/-- Claim C3: whenever the remote fetch fails (timeout, connection error,
non-200 status, or a non-image content type), `_create_space_tile` returns
the successfully produced procedural tile; no fetch error escapes. -/
theorem createSpaceTile_failure_procedural (fetch : FetchOutcome)
    (processRemote : List ℕ → String) (rng : ℤ → ℕ → ℕ)
    (render : List DrawOp → ℕ → String) (ra dec size : ℚ)
    (h : fetch.failed = true) :
    createSpaceTile fetch processRemote rng render ra dec size =
      { data := proceduralSpaceTile rng render ra dec size
        provenance := .procedural } := by
  cases fetch with
  | response status ct body =>
      cases hx : (status == 200 && strContains ct "image") with
      | true => simp [FetchOutcome.failed, hx] at h
      | false => simp [createSpaceTile, hx]
  | timeout => rfl
  | connectionError => rfl

/-- Witness for `createSpaceTile_failure_procedural` at a timeout. -/
theorem createSpaceTile_failure_procedural_witness :
    FetchOutcome.timeout.failed = true ∧
    createSpaceTile .timeout (fun _ => "") (fun _ _ => 0) (fun _ _ => "")
        10 20 1 =
      { data := proceduralSpaceTile (fun _ _ => 0) (fun _ _ => "") 10 20 1
        provenance := .procedural } :=
  ⟨rfl,
   createSpaceTile_failure_procedural .timeout (fun _ => "") (fun _ _ => 0)
     (fun _ _ => "") 10 20 1 rfl⟩

/-- Claim C4: the procedural generator's output is a function of the seed
`int((ra*1000 + dec*1000) % 10000)` alone — the seed is derived purely
from the coordinate, and the angular-size argument is shadowed before use
— so two invocations with the same right ascension and declination (more
generally, with equal seeds) produce byte-identical output for any sizes,
across runs and processes. -/
theorem proceduralSpaceTile_deterministic (rng : ℤ → ℕ → ℕ)
    (render : List DrawOp → ℕ → String) (ra₁ dec₁ size₁ ra₂ dec₂ size₂ : ℚ)
    (h : seedOf ra₁ dec₁ = seedOf ra₂ dec₂) :
    proceduralSpaceTile rng render ra₁ dec₁ size₁ =
      proceduralSpaceTile rng render ra₂ dec₂ size₂ := by
  simp [proceduralSpaceTile, h]

/-- Witness for `proceduralSpaceTile_deterministic`: `(1, 0)` and `(0, 1)`
both seed to `1000`, and the outputs agree even at different sizes. -/
theorem proceduralSpaceTile_deterministic_witness :
    seedOf 1 0 = seedOf 0 1 ∧
    proceduralSpaceTile (fun _ _ => 0) (fun _ _ => "body") 1 0 5 =
      proceduralSpaceTile (fun _ _ => 0) (fun _ _ => "body") 0 1 7 := by
  have h : seedOf 1 0 = seedOf 0 1 := by
    norm_num [seedOf, qmod, qfloor]
  exact ⟨h,
    proceduralSpaceTile_deterministic (fun _ _ => 0) (fun _ _ => "body")
      1 0 5 0 1 7 h⟩

/-- Claim C5, counterexample: `_get_or_create_tile` has no per-key
in-flight marker, so when two identical requests for an initially-absent
key interleave at the fetch suspension point (schedule 0,1,0,1: both
tasks observe the miss before either stores), the Remote Fetcher is
invoked twice, not exactly once. -/
theorem concurrent_identical_requests_two_fetches :
    (runSched (fun k => k) "tiledata" "key" [0, 1, 0, 1] twoTasksInit).fetches
      = 2 := by
  decide

/-- Claim C5 (amended): the unsynchronized check-then-fetch gives at most
one fetch per request, not per key; only when the identical requests are
serialized (the second starts after the first stored, schedule 0,0,1,1)
does the key cause exactly one Remote Fetcher invocation, the second
request being served from the cache. -/
theorem sequential_identical_requests_one_fetch (md5 : String → String)
    (env key : String) :
    (runSched md5 env key [0, 0, 1, 1] twoTasksInit).fetches = 1 := by
  simp [runSched, concStep, twoTasksInit, getTile, putTile, lookupStr]

/-- Claim C6: whatever the fetch outcome (enhanced remote image or
procedural fallback), `_get_or_create_tile` leaves the returned tile data
stored in the memory cache under the request's key, on the hit, the
promote and the create paths alike. -/
theorem getOrCreateTile_caches_result (md5 : String → String)
    (fetch : FetchOutcome) (processRemote : List ℕ → String)
    (rng : ℤ → ℕ → ℕ) (render : List DrawOp → ℕ → String) (ra dec size : ℚ)
    (survey : String) (s : TileCacheState) :
    lookupStr
        (getOrCreateTile md5 fetch processRemote rng render ra dec size survey
          s).2.mem (tileCacheKey survey ra dec size) =
      some (getOrCreateTile md5 fetch processRemote rng render ra dec size
        survey s).1 := by
  unfold getOrCreateTile getTile
  cases hmem : lookupStr s.mem (tileCacheKey survey ra dec size) with
  | some v => simp [hmem]
  | none =>
      cases hdisk : lookupStr s.disk (md5 (tileCacheKey survey ra dec size)) with
      | some bytes => simp [hmem, hdisk, lookupStr_cons_self]
      | none => simp [hmem, hdisk, putTile, lookupStr_cons_self]

/-- Claim C7, counterexample: on a constant channel (max = min) the
stretch `(v - min) / (max - min + 1e-8)` maps every pixel to `0` — the
channel `[100, 100]` comes out `[0, 0]`, not unchanged. -/
theorem stretchChannel_constant_counterexample :
    stretchChannel [100, 100] = [0, 0] ∧
    stretchChannel [100, 100] ≠ [100, 100] := by
  have h : stretchChannel [100, 100] = [0, 0] := by
    norm_num [stretchChannel, listMin, listMax, stretchEps]
  refine ⟨h, ?_⟩
  rw [h]
  norm_num

/-- Claim C7 (amended): when a channel's maximum equals its minimum, the
`1e-8` guard only avoids the division by zero; every pixel of the channel
is mapped to `0` by the stretch (and hence to black after gamma and
rescaling), not left unchanged. -/
theorem stretchChannel_constant_zero (c : List ℚ) (h : listMax c = listMin c) :
    stretchChannel c = c.map fun _ => (0 : ℚ) := by
  unfold stretchChannel
  apply List.map_congr_left
  intro v hv
  have h1 : listMin c ≤ v := listMin_le_of_mem hv
  have h2 : v ≤ listMax c := le_listMax_of_mem hv
  have hv' : v = listMin c := le_antisymm (h ▸ h2) h1
  rw [hv', sub_self, zero_div]

/-- Witness for `stretchChannel_constant_zero` on the constant channel
`[7, 7]`. -/
theorem stretchChannel_constant_zero_witness :
    listMax [(7 : ℚ), 7] = listMin [(7 : ℚ), 7] ∧
    stretchChannel [(7 : ℚ), 7] = [(7 : ℚ), 7].map fun _ => (0 : ℚ) := by
  have h : listMax [(7 : ℚ), 7] = listMin [(7 : ℚ), 7] := by
    simp [listMin, listMax]
  exact ⟨h, stretchChannel_constant_zero [7, 7] h⟩

/-- Claim C8, counterexample: when PIL cannot decode the input bytes,
`_convert_to_base64` returns the empty string — not the original
undecoded bytes (whose base64 data-URL would be non-empty). -/
theorem convertToBase64_decode_failure_counterexample :
    convertToBase64 (fun _ => none) (fun q => q) (fun _ => []) [1, 2, 3] = ""
      ∧ String.mk (b64Encode [1, 2, 3]) ≠ "" :=
  ⟨rfl, by decide⟩

/-- Claim C8 (amended): a decode failure inside `_convert_to_base64` is
absorbed (no error reaches the caller) but degrades to the empty string,
not to the original bytes; the original decoded image is only preserved
when the enhancement step itself fails. -/
theorem convertToBase64_decode_failure (decode : List ℕ → Option PImg)
    (gpow : ℚ → ℚ) (jpegEncode : List (List ℕ) → List ℕ) (data : List ℕ)
    (h : decode data = none) :
    convertToBase64 decode gpow jpegEncode data = "" := by
  simp [convertToBase64, h]

/-- Witness for `convertToBase64_decode_failure` on the bytes `[9]`. -/
theorem convertToBase64_decode_failure_witness :
    (fun _ : List ℕ => (none : Option PImg)) [9] = none ∧
    convertToBase64 (fun _ => none) (fun q => q) (fun _ => []) [9] = "" :=
  ⟨rfl, convertToBase64_decode_failure (fun _ => none) (fun q => q)
    (fun _ => []) [9] rfl⟩

/-- Claim C9: when the object name is in the curated Hubble table, the
gallery built on a cache miss contains the curated `space_telescope` item,
whatever the per-survey fetch outcomes; and a survey whose fetch fails is
simply absent from the result. -/
theorem gallery_curated_and_partial (envG : String → FetchOutcome)
    (now objName : String) (ra dec : ℚ)
    (cache : List (String × List GalleryItem)) (rec : CuratedRecord)
    (sName : String)
    (hmiss : lookupStr cache (galleryKey objName ra dec) = none)
    (hrec : lookupStr hubbleObjects objName = some rec)
    (hfail : fetchSurveyImage envG sName = none)
    (hsurv : sName ∈ gallerySurveyNames) :
    (hubbleGalleryItem rec ∈
        (getMultiWavelengthGallery envG now objName ra dec cache).1 ∧
      (hubbleGalleryItem rec).category = "space_telescope") ∧
    ∀ it ∈ (getMultiWavelengthGallery envG now objName ra dec cache).1,
      it.survey ≠ sName := by
  have hres : (getMultiWavelengthGallery envG now objName ra dec cache).1 =
      buildGalleryItems envG now objName ra dec := by
    simp [getMultiWavelengthGallery, hmiss]
  rw [hres]
  constructor
  · constructor
    · have hmemh : hubbleGalleryItem rec ∈ getHubbleImages objName := by
        unfold getHubbleImages
        rw [hrec]
        exact List.mem_singleton_self _
      unfold buildGalleryItems
      exact List.mem_append_left _ (List.mem_append_right _ hmemh)
    · rfl
  · intro it hit hEq
    unfold buildGalleryItems at hit
    rcases List.mem_append.mp hit with hit' | hjw
    · rcases List.mem_append.mp hit' with hgen | hhub
      · rcases List.mem_flatMap.mp hgen with ⟨cs, _, hitem⟩
        rcases List.mem_filterMap.mp hitem with ⟨sm, _, heq⟩
        rcases Option.map_eq_some'.mp heq with ⟨url, hurl, hbuild⟩
        have hsv : it.survey = sm.1 := by rw [← hbuild]
        rw [hsv] at hEq
        rw [hEq] at hurl
        rw [hfail] at hurl
        cases hurl
      · unfold getHubbleImages at hhub
        rw [hrec] at hhub
        have : it = hubbleGalleryItem rec := List.mem_singleton.mp hhub
        subst this
        have hin : ("Hubble Space Telescope" : String) ∈ gallerySurveyNames := by
          have := hsurv
          rw [← hEq] at this
          simpa [hubbleGalleryItem] using this
        exact absurd hin (by decide)
    · unfold getJwstImages at hjw
      cases hj : lookupStr jwstObjects objName with
      | none => rw [hj] at hjw; simp at hjw
      | some rec' =>
          rw [hj] at hjw
          have : it = jwstGalleryItem rec' := List.mem_singleton.mp hjw
          subst this
          have hin : ("James Webb Space Telescope" : String) ∈
              gallerySurveyNames := by
            have := hsurv
            rw [← hEq] at this
            simpa [jwstGalleryItem] using this
          exact absurd hin (by decide)

/-- Witness for `gallery_curated_and_partial`: the Orion Nebula with every
remote request timing out still yields the curated Hubble
`space_telescope` item, and the failed `DSS2 Red` survey is absent. -/
theorem gallery_curated_and_partial_witness :
    lookupStr hubbleObjects "Orion Nebula" =
      some ⟨"https://hubblesite.org/files/live/sites/hubble/files/home/hubble-30th-anniversary/images/hubble_30th_orion_nebula.jpg",
        "Hubble visible light composite", "2020-04-24",
        "F658N, F502N, F475W"⟩ ∧
    (hubbleGalleryItem ⟨"https://hubblesite.org/files/live/sites/hubble/files/home/hubble-30th-anniversary/images/hubble_30th_orion_nebula.jpg",
        "Hubble visible light composite", "2020-04-24",
        "F658N, F502N, F475W"⟩ ∈
        (getMultiWavelengthGallery (fun _ => .timeout) "2026-10-12"
          "Orion Nebula" (83822 / 1000) (-5391 / 1000) []).1 ∧
      (hubbleGalleryItem ⟨"https://hubblesite.org/files/live/sites/hubble/files/home/hubble-30th-anniversary/images/hubble_30th_orion_nebula.jpg",
        "Hubble visible light composite", "2020-04-24",
        "F658N, F502N, F475W"⟩).category = "space_telescope") ∧
    ∀ it ∈ (getMultiWavelengthGallery (fun _ => .timeout) "2026-10-12"
        "Orion Nebula" (83822 / 1000) (-5391 / 1000) []).1,
      it.survey ≠ "DSS2 Red" :=
  ⟨by decide,
   gallery_curated_and_partial (fun _ => .timeout) "2026-10-12" "Orion Nebula"
     (83822 / 1000) (-5391 / 1000) [] _ "DSS2 Red" rfl (by decide) rfl
     (by decide)⟩

/-- Claim C10: the cache key of `get_object_image` is built from the
object name, the survey and the angular size only, so a second call with
the same name, survey and size but different coordinates returns the value
the first call cached, with the state (including the fetch count)
unchanged. -/
theorem getObjectImage_key_ignores_coordinates
    (env : ℚ → ℚ → String → ℚ → FetchOutcome) (decode : List ℕ → Option PImg)
    (gpow : ℚ → ℚ) (jpegEncode : List (List ℕ) → List ℕ) (rng : ℤ → ℕ → ℕ)
    (render : List DrawOp → ℕ → String) (objName survey : String)
    (size ra₁ dec₁ ra₂ dec₂ : ℚ) (s : HandlerState) :
    getObjectImage env decode gpow jpegEncode rng render objName ra₂ dec₂
        survey size
        (getObjectImage env decode gpow jpegEncode rng render objName ra₁ dec₁
          survey size s).2 =
      ((getObjectImage env decode gpow jpegEncode rng render objName ra₁ dec₁
          survey size s).1,
       (getObjectImage env decode gpow jpegEncode rng render objName ra₁ dec₁
          survey size s).2) := by
  have hkey : lookupStr
      (getObjectImage env decode gpow jpegEncode rng render objName ra₁ dec₁
        survey size s).2.image_cache (objectCacheKey objName survey size) =
      some (getObjectImage env decode gpow jpegEncode rng render objName ra₁
        dec₁ survey size s).1 := by
    unfold getObjectImage
    cases hc : lookupStr s.image_cache (objectCacheKey objName survey size) with
    | some v => simp [hc]
    | none =>
        cases hf : fetchSkyviewImage (env ra₁ dec₁ survey size) with
        | some bytes => simp [hc, hf, lookupStr_cons_self]
        | none => simp [hc, hf, lookupStr_cons_self]
  set r := getObjectImage env decode gpow jpegEncode rng render objName ra₁
    dec₁ survey size s with hr
  simp only [getObjectImage, hkey]

end Nasa2025
